import Mathlib

/-!
# ezbookkeeping: SQL Server / Azure SQL DB connection configuration

A shallow embedding of `pkg/datastore/mssql_auth.go`, `pkg/datastore/mssql_init.go`,
`pkg/datastore/mssql_dialect.go` and the constants of
`pkg/settings/settings_extensions.go`.

Conventions of the embedding:

* a Go `string` is a Lean `String`; `strings.Index` with an ASCII needle cuts a
  valid UTF-8 string at a character boundary, so byte offsets and character
  offsets select the same prefix;
* a `*settings.DatabaseConfig` is an `Option DatabaseConfig` (`none` is `nil`);
* a Go `error` is an `Option GoError` (`none` is `nil`), and a `(string, error)`
  result is a pair `String × Option GoError`;
* a Go integer is a Lean `Int`; the width of `int` (32 or 64 bits, by the build
  target) is a parameter `intSize`, and the conversion `int(x)` is `goInt intSize x`,
  which wraps modulo `2 ^ intSize`.
-/

namespace Ezbookkeeping

/-! ## settings -/

namespace settings

/-- The constant `settings.SqlServerDbType`. -/
def SqlServerDbType : String := "sqlserver"

/-- The constant `settings.AzureSqlDbType`. -/
def AzureSqlDbType : String := "azuresqldb"

/-- The constant `settings.AzureAuthPassword`. -/
def AzureAuthPassword : String := "password"

/-- The constant `settings.AzureAuthServicePrincipal`. -/
def AzureAuthServicePrincipal : String := "service_principal"

/-- Modelled from the spec: the constant `settings.MySqlDbType` is declared in
`setting.go`, which is not part of the sources at hand; the specification names the
type `mysql`. -/
def MySqlDbType : String := "mysql"

/-- Modelled from the spec: the constant `settings.PostgresDbType` is declared in
`setting.go`, which is not part of the sources at hand; the specification names the
type `postgres`. -/
def PostgresDbType : String := "postgres"

/-- Modelled from the spec: the constant `settings.Sqlite3DbType` is declared in
`setting.go`, which is not part of the sources at hand; the specification calls it the
embedded, file-based dialect, and the name of the constant gives `sqlite3`. -/
def Sqlite3DbType : String := "sqlite3"

/-- Modelled from the spec: the struct `settings.DatabaseConfig` is declared in
`setting.go`, which is not part of the sources at hand. The fields are those the
datastore functions read, plus the extension fields listed in
`settings_extensions.go`. The three generic pool hints are integers of a type that
`setting.go` declares and the datastore code converts with `int(...)`; a field holds
the numeric value, and the conversion is `goInt`. The three Azure overrides are
declared `int` in `settings_extensions.go`. -/
structure DatabaseConfig where
  DatabaseType : String := ""
  DatabaseHost : String := ""
  DatabaseName : String := ""
  DatabaseUser : String := ""
  DatabasePassword : String := ""
  MaxIdleConnection : Int := 0
  MaxOpenConnection : Int := 0
  ConnectionMaxLifeTime : Int := 0
  AzureAuthMethod : String := ""
  AzureTenantID : String := ""
  AzureClientID : String := ""
  AzureClientSecret : String := ""
  AzureMaxIdleConns : Int := 0
  AzureMaxOpenConns : Int := 0
  AzureConnMaxLifetime : Int := 0
  deriving DecidableEq, Repr

end settings

/-! ## errs and fmt -/

/-- Modelled from the spec: package `errs` is not part of the sources at hand; its
two sentinels `ErrDatabaseIsNull` and `ErrDatabaseHostInvalid` are the distinct error
kinds the specification calls `NullConfig` and `MissingHost`. `Errorf msg` is the
value of `fmt.Errorf(msg)`; two such values count as the same error when their
messages are equal. -/
inductive GoError where
  | ErrDatabaseIsNull
  | ErrDatabaseHostInvalid
  | Errorf (msg : String)
  deriving DecidableEq, Repr

/-! ## Go integers -/

/-- Position of the first occurrence of `sub` in `s` (both as character lists). -/
def indexOfSub (sub : List Char) : List Char → Option Nat
  | [] => if sub = [] then some 0 else none
  | c :: cs =>
    if sub.isPrefixOf (c :: cs) then some 0
    else (indexOfSub sub cs).map (· + 1)

/-- Go `strings.Index(s, substr)`: the index of the first instance of `substr`
in `s`, or `-1` if `substr` is not present in `s`. -/
def stringsIndex (s substr : String) : Int :=
  match indexOfSub substr.data s.data with
  | some i => (i : Int)
  | none => -1

/-- Go `strings.Contains(s, substr)`, which is `Index(s, substr) >= 0`. -/
def stringsContains (s substr : String) : Bool :=
  decide (stringsIndex s substr ≥ 0)

/-- Go slice expression `s[:idx]` for `0 ≤ idx ≤ len(s)`. -/
def sliceTo (s : String) (idx : Int) : String :=
  ⟨s.data.take idx.toNat⟩

/-! ## datastore: mssql_auth.go -/

namespace datastore

open settings

/-- Source function `extractServerName` of `mssql_auth.go`. -/
def extractServerName (host : String) : String :=
  let host := if stringsIndex host ":" ≠ -1 then sliceTo host (stringsIndex host ":") else host
  let host :=
    if stringsIndex host ".database.windows.net" ≠ -1 then
      sliceTo host (stringsIndex host ".database.windows.net")
    else host
  host

/-- Source function `buildBasicMSSQLConnectionString` of `mssql_auth.go`. -/
def buildBasicMSSQLConnectionString (dbConfig : DatabaseConfig) : String × Option GoError :=
  if dbConfig.DatabaseHost = "" then
    ("", some GoError.ErrDatabaseHostInvalid)
  else if dbConfig.DatabaseUser = "" then
    ("", some (GoError.Errorf "database user is required"))
  else
    let username := dbConfig.DatabaseUser
    let username :=
      if dbConfig.DatabaseType = AzureSqlDbType ∧ ¬ stringsContains username "@" then
        let serverName := extractServerName dbConfig.DatabaseHost
        if serverName ≠ "" then username ++ "@" ++ serverName else username
      else username
    let connStr := "server=" ++ dbConfig.DatabaseHost ++ ";user id=" ++ username ++
      ";password=" ++ dbConfig.DatabasePassword ++ ";database=" ++ dbConfig.DatabaseName
    (connStr, none)

/-- Source function `buildAzureServicePrincipalConnectionString` of `mssql_auth.go`. -/
def buildAzureServicePrincipalConnectionString (dbConfig : DatabaseConfig) :
    String × Option GoError :=
  if dbConfig.DatabaseHost = "" then
    ("", some GoError.ErrDatabaseHostInvalid)
  else if dbConfig.AzureClientID = "" then
    ("", some (GoError.Errorf "azure_client_id is required for service principal authentication"))
  else if dbConfig.AzureClientSecret = "" then
    ("", some (GoError.Errorf
      "azure_client_secret is required for service principal authentication"))
  else
    let connStr := "server=" ++ dbConfig.DatabaseHost ++
      ";fedauth=ActiveDirectoryServicePrincipal;User ID=" ++ dbConfig.AzureClientID ++
      ";Password=" ++ dbConfig.AzureClientSecret ++ ";database=" ++ dbConfig.DatabaseName
    (connStr, none)

/-- Source function `BuildMSSQLConnectionString` of `mssql_auth.go`. -/
def BuildMSSQLConnectionString (dbConfig : Option DatabaseConfig) : String × Option GoError :=
  match dbConfig with
  | none => ("", some GoError.ErrDatabaseIsNull)
  | some dbConfig =>
    if dbConfig.DatabaseType = AzureSqlDbType ∧
        dbConfig.AzureAuthMethod = AzureAuthServicePrincipal then
      buildAzureServicePrincipalConnectionString dbConfig
    else
      buildBasicMSSQLConnectionString dbConfig

/-- Source function `ValidateMSSQLConfig` of `mssql_auth.go`. -/
def ValidateMSSQLConfig (dbConfig : Option DatabaseConfig) : Option GoError :=
  match dbConfig with
  | none => some GoError.ErrDatabaseIsNull
  | some dbConfig =>
    if dbConfig.DatabaseHost = "" then
      some GoError.ErrDatabaseHostInvalid
    else if dbConfig.DatabaseName = "" then
      some (GoError.Errorf "database name is required")
    else if dbConfig.AzureAuthMethod = AzureAuthServicePrincipal then
      if dbConfig.AzureClientID = "" then
        some (GoError.Errorf "azure_client_id is required for service principal authentication")
      else if dbConfig.AzureClientSecret = "" then
        some (GoError.Errorf
          "azure_client_secret is required for service principal authentication")
      else if dbConfig.AzureTenantID = "" then
        some (GoError.Errorf "azure_tenant_id is required for service principal authentication")
      else none
    else
      if dbConfig.DatabaseUser = "" then
        some (GoError.Errorf "database user is required for basic authentication")
      else none

/-! ## datastore: mssql_init.go -/

/-- Source function `getMssqlConnectionString` of `mssql_init.go`. -/
def getMssqlConnectionString (dbConfig : Option DatabaseConfig) : String × Option GoError :=
  match ValidateMSSQLConfig dbConfig with
  | some err => ("", some err)
  | none => BuildMSSQLConnectionString dbConfig

/-- Source function `GetMssqlDriverName` of `mssql_init.go`. -/
def GetMssqlDriverName : String := "mssql"

/-- The parameter type `interface{ Exec(sql string, args ...interface{}) (interface{}, error) }`
of the savepoint functions: a session with the single capability `Exec`. The session
is a state transformer, `σ` being whatever the session keeps (for instance the
statements it has received), `α` the type of bind arguments and `ρ` the type of
results. -/
structure Session (σ ρ α : Type) where
  Exec : σ → String → List α → (ρ × Option GoError) × σ

/-- Source function `SetSavePointMssql` of `mssql_dialect.go`. -/
def SetSavePointMssql {σ ρ α : Type} (sess : Session σ ρ α) (st : σ)
    (savePointName : String) : Option GoError × σ :=
  let r := sess.Exec st ("SAVE TRANSACTION [" ++ savePointName ++ "]") []
  (r.1.2, r.2)

/-- Source function `RollbackToSavePointMssql` of `mssql_dialect.go`. -/
def RollbackToSavePointMssql {σ ρ α : Type} (sess : Session σ ρ α) (st : σ)
    (savePointName : String) : Option GoError × σ :=
  let r := sess.Exec st ("ROLLBACK TRANSACTION [" ++ savePointName ++ "]") []
  (r.1.2, r.2)

/-- Source function `GetDatabaseTypeDriver` of `mssql_dialect.go`; the cases of the
`switch` are tried in the order of the source. -/
def GetDatabaseTypeDriver (dbType : String) : String :=
  if dbType = SqlServerDbType ∨ dbType = AzureSqlDbType then "mssql"
  else if dbType = MySqlDbType then MySqlDbType
  else if dbType = PostgresDbType then PostgresDbType
  else if dbType = Sqlite3DbType then Sqlite3DbType
  else dbType

/-- Source function `IsMssqlDatabase` of `mssql_dialect.go`. -/
def IsMssqlDatabase (dbType : String) : Bool :=
  dbType == SqlServerDbType || dbType == AzureSqlDbType

/-- Source function `SupportsTransactionSavepoints` of `mssql_dialect.go`. -/
def SupportsTransactionSavepoints (dbType : String) : Bool :=
  dbType == PostgresDbType || IsMssqlDatabase dbType

/-- Source function `GetDateTimeFormat` of `mssql_dialect.go`; the cases of the
`switch` are tried in the order of the source. -/
def GetDateTimeFormat (dbType : String) : String :=
  if dbType = PostgresDbType then "2006-01-02 15:04:05"
  else if dbType = MySqlDbType then "2006-01-02 15:04:05"
  else if dbType = Sqlite3DbType then "2006-01-02 15:04:05"
  else if dbType = SqlServerDbType ∨ dbType = AzureSqlDbType then "2006-01-02T15:04:05"
  else "2006-01-02 15:04:05"

end datastore

/-! ## The short server name as the specification words it -/

/-- Step (a) of the specification of the short server name: strip a trailing
`:<port>` suffix, that is a colon followed by one or more decimal digits that end the
host. Follows the specification text, not the source. -/
def specStripTrailingPort (host : String) : String :=
  let digits := host.data.reverse.takeWhile Char.isDigit
  match host.data.reverse.dropWhile Char.isDigit with
  | c :: rest => if c = ':' ∧ digits ≠ [] then ⟨rest.reverse⟩ else host
  | [] => host

/-- Step (b) of the specification of the short server name: strip the literal
`.database.windows.net` when the host ends with it. Follows the specification text,
not the source. -/
def specStripDomainSuffix (host : String) : String :=
  if ".database.windows.net".data.isSuffixOf host.data then
    ⟨host.data.take (host.data.length - ".database.windows.net".data.length)⟩
  else host

/-- The short server name by the two steps of the specification, (a) then (b). -/
def specServerShortName (host : String) : String :=
  specStripDomainSuffix (specStripTrailingPort host)

/-! ## Pool settings as the specification words them -/

/-- A session whose state is the list of `(statement, bind arguments)` pairs it has
received so far, and whose result and error for a statement are given by `respond`,
a function from the SQL statement to a result-or-error. -/
def recordingSession {ρ α : Type} (respond : String → ρ × Option GoError) :
    datastore.Session (List (String × List α)) ρ α :=
  { Exec := fun log sql args => (respond sql, log ++ [(sql, args)]) }

/-! ## Reading a connection string back -/

/-- Splitting a string on `;` as `strings.Split(s, ";")` does: the pieces between
successive separators, in order, empty pieces included. -/
def splitOnSemicolon (s : String) : List String :=
  (s.data.splitOn ';').map String.mk

/-! ## Example configurations -/

open settings datastore

/-- Service-principal configuration with tenant id and client id both empty. -/
def cfgNoTenantNoClient : DatabaseConfig :=
  { DatabaseType := "azuresqldb", DatabaseHost := "acct.database.windows.net",
    DatabaseName := "ledger", AzureAuthMethod := "service_principal",
    AzureClientSecret := "secret" }

/-- Service-principal configuration with only the tenant id empty. -/
def cfgNoTenant : DatabaseConfig :=
  { DatabaseType := "azuresqldb", DatabaseHost := "acct.database.windows.net",
    DatabaseName := "ledger", AzureAuthMethod := "service_principal",
    AzureClientID := "cid", AzureClientSecret := "secret" }

/-- Configuration with an empty host and every other field filled in. -/
def cfgNoHost : DatabaseConfig :=
  { DatabaseType := "azuresqldb", DatabaseName := "ledger", DatabaseUser := "svc",
    DatabasePassword := "p@ss", AzureAuthMethod := "service_principal",
    AzureTenantID := "tid", AzureClientID := "cid", AzureClientSecret := "secret" }

/-- Plain SQL Server configuration whose auth method field says service principal,
with the three service-principal fields filled in and no user. -/
def cfgSqlServerPrincipal : DatabaseConfig :=
  { DatabaseType := "sqlserver", DatabaseHost := "db.internal", DatabaseName := "ledger",
    AzureAuthMethod := "service_principal",
    AzureTenantID := "tid", AzureClientID := "cid", AzureClientSecret := "secret" }

/-- Plain SQL Server configuration with user and password but no database name. -/
def cfgNoName : DatabaseConfig :=
  { DatabaseType := "sqlserver", DatabaseHost := "db.internal", DatabaseUser := "svc",
    DatabasePassword := "p@ss" }

/-- The end-to-end SQL Server scenario. -/
def cfgSqlServer : DatabaseConfig :=
  { DatabaseType := "sqlserver", DatabaseHost := "db.internal", DatabaseUser := "svc",
    DatabasePassword := "p@ss", DatabaseName := "ledger" }

/-- Azure SQL DB with password authentication and an unqualified user. -/
def cfgAlice : DatabaseConfig :=
  { DatabaseType := "azuresqldb", DatabaseHost := "myserver.database.windows.net",
    DatabaseUser := "alice", DatabasePassword := "pw", DatabaseName := "ledger" }

/-- Azure SQL DB with password authentication and an already qualified user. -/
def cfgAliceQualified : DatabaseConfig :=
  { DatabaseType := "azuresqldb", DatabaseHost := "myserver.database.windows.net",
    DatabaseUser := "alice@myserver", DatabasePassword := "pw", DatabaseName := "ledger" }

/-- The end-to-end service-principal scenario. -/
def cfgPrincipal : DatabaseConfig :=
  { DatabaseType := "azuresqldb", AzureAuthMethod := "service_principal",
    DatabaseHost := "acct.database.windows.net", DatabaseName := "ledger",
    AzureClientID := "cid", AzureClientSecret := "secret", AzureTenantID := "tid" }

/-- The service-principal scenario with user, password and another tenant filled in. -/
def cfgPrincipalOtherUser : DatabaseConfig :=
  { DatabaseType := "azuresqldb", AzureAuthMethod := "service_principal",
    DatabaseHost := "acct.database.windows.net", DatabaseName := "ledger",
    DatabaseUser := "svc", DatabasePassword := "p@ss",
    AzureClientID := "cid", AzureClientSecret := "secret", AzureTenantID := "other" }

/-- The SQL Server scenario with the three service-principal fields filled in. -/
def cfgSqlServerAzureFields : DatabaseConfig :=
  { DatabaseType := "sqlserver", DatabaseHost := "db.internal", DatabaseUser := "svc",
    DatabasePassword := "p@ss", DatabaseName := "ledger",
    AzureClientID := "cid", AzureClientSecret := "secret", AzureTenantID := "tid" }

/-- The SQL Server scenario with a password that contains the separator. -/
def cfgPasswordSemicolon : DatabaseConfig :=
  { DatabaseType := "sqlserver", DatabaseHost := "db.internal", DatabaseUser := "svc",
    DatabasePassword := "p;ss", DatabaseName := "ledger" }

/-! ## Unfolding lemmas -/

/-- The builder on a non-null configuration: the branch selection of the source. -/
theorem build_some (c : DatabaseConfig) :
    BuildMSSQLConnectionString (some c) =
      if c.DatabaseType = AzureSqlDbType ∧ c.AzureAuthMethod = AzureAuthServicePrincipal then
        buildAzureServicePrincipalConnectionString c
      else buildBasicMSSQLConnectionString c := rfl

/-- The composed entry point after a successful validation is the builder. -/
theorem get_of_valid (c : Option DatabaseConfig) (h : ValidateMSSQLConfig c = none) :
    getMssqlConnectionString c = BuildMSSQLConnectionString c := by
  simp [getMssqlConnectionString, h]

/-- The composed entry point after a failed validation returns that error. -/
theorem get_of_invalid (c : Option DatabaseConfig) (e : GoError)
    (h : ValidateMSSQLConfig c = some e) :
    getMssqlConnectionString c = ("", some e) := by
  simp [getMssqlConnectionString, h]

/-! ## Facts about the string primitives -/

/-- A one-character needle is absent exactly when the character does not occur. -/
theorem indexOfSub_singleton_eq_none (a : Char) (l : List Char) :
    indexOfSub [a] l = none ↔ a ∉ l := by
  induction l with
  | nil => simp [indexOfSub]
  | cons c cs ih =>
    by_cases hac : a = c
    · simp [indexOfSub, List.isPrefixOf, hac]
    · have hca : ¬ c = a := fun h => hac h.symm
      simp [indexOfSub, List.isPrefixOf, hac, hca, ih]

/-- The test `strings.Contains(s, "@")` holds exactly when `@` occurs in `s`. -/
theorem stringsContains_at (s : String) : stringsContains s "@" = true ↔ '@' ∈ s.data := by
  have key := indexOfSub_singleton_eq_none '@' s.data
  have hd : ("@" : String).data = ['@'] := rfl
  unfold stringsContains stringsIndex
  rw [hd]
  cases h : indexOfSub ['@'] s.data with
  | none =>
    have : '@' ∉ s.data := key.mp h
    simp [this]
  | some i =>
    have : '@' ∈ s.data := by
      by_contra hn
      rw [key.mpr hn] at h
      exact Option.noConfusion h
    simp [this]

/-- A found index marks an occurrence: the needle is a prefix of what is left there. -/
theorem indexOfSub_some_isPrefix (sub : List Char) (l : List Char) (i : Nat)
    (h : indexOfSub sub l = some i) : sub <+: l.drop i := by
  induction l generalizing i with
  | nil =>
    simp only [indexOfSub] at h
    split_ifs at h with hs
    simp [hs]
  | cons c cs ih =>
    simp only [indexOfSub] at h
    split_ifs at h with hp
    · simp only [Option.some.injEq] at h
      subst h
      exact List.isPrefixOf_iff_prefix.mp hp
    · rcases Option.map_eq_some'.mp h with ⟨j, hj, rfl⟩
      simpa using ih j hj

/-- Every occurrence of the needle is found. -/
theorem indexOfSub_isSome_of_infix (sub : List Char) (l : List Char) (h : sub <:+: l) :
    ∃ i, indexOfSub sub l = some i := by
  induction l with
  | nil =>
    have hs : sub = [] := List.eq_nil_of_infix_nil h
    exact ⟨0, by simp [indexOfSub, hs]⟩
  | cons c cs ih =>
    by_cases hp : sub.isPrefixOf (c :: cs) = true
    · exact ⟨0, by simp [indexOfSub, hp]⟩
    · rcases List.infix_cons_iff.mp h with h1 | h2
      · exact absurd (List.isPrefixOf_iff_prefix.mpr h1) hp
      · obtain ⟨j, hj⟩ := ih h2
        exact ⟨j + 1, by simp [indexOfSub, hp, hj]⟩

/-- The first occurrence of a character that is absent from `l` in `l ++ a :: t`. -/
theorem indexOfSub_singleton_append (a : Char) (l t : List Char) (h : a ∉ l) :
    indexOfSub [a] (l ++ a :: t) = some l.length := by
  induction l with
  | nil => simp [indexOfSub, List.isPrefixOf]
  | cons c cs ih =>
    have hca : ¬ a = c := fun hc => h (by simp [hc])
    have hcs : a ∉ cs := fun hc => h (by simp [hc])
    simp [indexOfSub, List.isPrefixOf, hca, ih hcs]

/-- The idiom `if idx := strings.Index(s, sub); idx != -1 { s = s[:idx] }` in terms of
the first occurrence. -/
theorem cut_at_index (s sub : String) :
    (if stringsIndex s sub ≠ -1 then sliceTo s (stringsIndex s sub) else s) =
      match indexOfSub sub.data s.data with
      | some i => ⟨s.data.take i⟩
      | none => s := by
  unfold stringsIndex sliceTo
  cases indexOfSub sub.data s.data with
  | none => simp
  | some i =>
    have h : ((i : Int) ≠ -1) := by omega
    simp [h]

/-- The needle is absent exactly when it does not occur as a contiguous part. -/
theorem indexOfSub_eq_none_iff (sub l : List Char) :
    indexOfSub sub l = none ↔ ¬ sub <:+: l := by
  constructor
  · intro h hin
    obtain ⟨i, hi⟩ := indexOfSub_isSome_of_infix sub l hin
    rw [h] at hi
    exact Option.noConfusion hi
  · intro h
    cases hi : indexOfSub sub l with
    | none => rfl
    | some i =>
      exfalso
      apply h
      exact (indexOfSub_some_isPrefix sub l i hi).isInfix.trans (List.drop_suffix i l).isInfix

/-- The test `strings.Contains(s, sub)` holds exactly when `sub` occurs in `s`. -/
theorem stringsContains_iff (s sub : String) :
    stringsContains s sub = true ↔ sub.data <:+: s.data := by
  unfold stringsContains stringsIndex
  cases h : indexOfSub sub.data s.data with
  | none =>
    have hn := (indexOfSub_eq_none_iff _ _).mp h
    simp [hn]
  | some i =>
    have hin : sub.data <:+: s.data := by
      by_contra hn
      rw [(indexOfSub_eq_none_iff _ _).mpr hn] at h
      exact Option.noConfusion h
    simp [hin]

/-- Nothing of a non-empty needle occurs before its first occurrence. -/
theorem indexOfSub_take (sub l : List Char) (i : Nat) (hne : sub ≠ [])
    (h : indexOfSub sub l = some i) : indexOfSub sub (l.take i) = none := by
  induction l generalizing i with
  | nil =>
    simp only [indexOfSub] at h
    split_ifs at h with hs
    exact absurd hs hne
  | cons c cs ih =>
    simp only [indexOfSub] at h
    split_ifs at h with hp
    · simp only [Option.some.injEq] at h
      subst h
      simp [indexOfSub, hne]
    · rcases Option.map_eq_some'.mp h with ⟨j, hj, rfl⟩
      have hnp : ¬ sub.isPrefixOf (c :: cs.take j) = true := by
        intro hq
        apply hp
        rw [List.isPrefixOf_iff_prefix] at hq ⊢
        exact hq.trans ((List.prefix_cons_inj c).mpr (List.take_prefix j cs))
      simp [indexOfSub, hnp, ih j hj]

/-- A part without the separator `c` that occurs in `A ++ c :: B` occurs in `A` or in
`B`. -/
theorem infix_of_infix_append_sep (P A B : List Char) (c : Char) (hc : c ∉ P)
    (h : P <:+: A ++ c :: B) : P <:+: A ∨ P <:+: B := by
  have hpre : ∀ X : List Char, P <+: X ++ c :: B → P <+: X := by
    intro X hX
    by_cases hle : P.length ≤ X.length
    · exact List.prefix_of_prefix_length_le hX (List.prefix_append X (c :: B)) hle
    · exfalso
      have h1 : X ++ [c] <+: X ++ c :: B := by
        rw [List.prefix_append_right_inj]
        exact ⟨B, rfl⟩
      have h2 : (X ++ [c]).length ≤ P.length := by
        simp only [List.length_append, List.length_singleton]
        omega
      have h3 : X ++ [c] <+: P := List.prefix_of_prefix_length_le h1 hX h2
      exact hc (h3.subset (by simp))
  induction A with
  | nil =>
    rw [List.nil_append] at h
    rcases List.infix_cons_iff.mp h with h1 | h1
    · exact Or.inl (hpre [] h1).isInfix
    · exact Or.inr h1
  | cons a A ih =>
    rw [List.cons_append] at h
    rcases List.infix_cons_iff.mp h with h1 | h1
    · exact Or.inl (hpre (a :: A) h1).isInfix
    · rcases ih h1 with h2 | h2
      · exact Or.inl (h2.trans (List.suffix_cons a A).isInfix)
      · exact Or.inr h2

/-! ## Validation order (C1) -/

/-- C1, counterexample: with service-principal auth, non-empty host and database
name, and BOTH the tenant id and the client id empty, the validator reports the
missing client id, not the missing tenant id. -/
theorem C1_counterexample :
    cfgNoTenantNoClient.DatabaseHost ≠ "" ∧ cfgNoTenantNoClient.DatabaseName ≠ "" ∧
    cfgNoTenantNoClient.AzureAuthMethod = AzureAuthServicePrincipal ∧
    cfgNoTenantNoClient.AzureTenantID = "" ∧
    ValidateMSSQLConfig (some cfgNoTenantNoClient) =
      some (GoError.Errorf "azure_client_id is required for service principal authentication") ∧
    ValidateMSSQLConfig (some cfgNoTenantNoClient) ≠
      some (GoError.Errorf "azure_tenant_id is required for service principal authentication") := by
  decide

/-- C1, amended: for a non-null configuration with non-empty host and database name
and service-principal auth, the validator checks client id, then client secret, then
tenant id: an empty client id gives the missing-client-id error whatever the other two
are; otherwise an empty client secret gives the missing-client-secret error; otherwise
an empty tenant id gives the missing-tenant-id error. -/
theorem C1_validate_order (c : DatabaseConfig)
    (hHost : c.DatabaseHost ≠ "") (hName : c.DatabaseName ≠ "")
    (hAuth : c.AzureAuthMethod = AzureAuthServicePrincipal) :
    (c.AzureClientID = "" → ValidateMSSQLConfig (some c) =
      some (GoError.Errorf "azure_client_id is required for service principal authentication")) ∧
    (c.AzureClientID ≠ "" → c.AzureClientSecret = "" → ValidateMSSQLConfig (some c) =
      some (GoError.Errorf
        "azure_client_secret is required for service principal authentication")) ∧
    (c.AzureClientID ≠ "" → c.AzureClientSecret ≠ "" → c.AzureTenantID = "" →
      ValidateMSSQLConfig (some c) =
      some (GoError.Errorf
        "azure_tenant_id is required for service principal authentication")) := by
  refine ⟨?_, ?_, ?_⟩
  · intro h1
    simp [ValidateMSSQLConfig, hHost, hName, hAuth, h1]
  · intro h1 h2
    simp [ValidateMSSQLConfig, hHost, hName, hAuth, h1, h2]
  · intro h1 h2 h3
    simp [ValidateMSSQLConfig, hHost, hName, hAuth, h1, h2, h3]

/-- C1, witness: the amended order at a configuration whose only missing
service-principal field is the tenant id. -/
theorem C1_validate_order_witness :
    ValidateMSSQLConfig (some cfgNoTenant) =
      some (GoError.Errorf "azure_tenant_id is required for service principal authentication") :=
  (C1_validate_order cfgNoTenant (by decide) (by decide) (by decide)).2.2
    (by decide) (by decide) (by decide)

/-! ## Empty host (C2) -/

/-- C2: for every non-null configuration with an empty host, the validator, the
builder and the composed entry point all fail with `ErrDatabaseHostInvalid`, whatever
the other fields are. -/
theorem C2_empty_host (c : DatabaseConfig) (hHost : c.DatabaseHost = "") :
    ValidateMSSQLConfig (some c) = some GoError.ErrDatabaseHostInvalid ∧
    BuildMSSQLConnectionString (some c) = ("", some GoError.ErrDatabaseHostInvalid) ∧
    getMssqlConnectionString (some c) = ("", some GoError.ErrDatabaseHostInvalid) := by
  have hv : ValidateMSSQLConfig (some c) = some GoError.ErrDatabaseHostInvalid := by
    simp [ValidateMSSQLConfig, hHost]
  refine ⟨hv, ?_, ?_⟩
  · rw [build_some]
    split_ifs
    · simp [buildAzureServicePrincipalConnectionString, hHost]
    · simp [buildBasicMSSQLConnectionString, hHost]
  · simp [getMssqlConnectionString, hv]

/-- C2, witness: a configuration with an empty host and all other fields filled. -/
theorem C2_empty_host_witness :
    cfgNoHost.DatabaseHost = "" ∧
    ValidateMSSQLConfig (some cfgNoHost) = some GoError.ErrDatabaseHostInvalid ∧
    BuildMSSQLConnectionString (some cfgNoHost) = ("", some GoError.ErrDatabaseHostInvalid) ∧
    getMssqlConnectionString (some cfgNoHost) = ("", some GoError.ErrDatabaseHostInvalid) :=
  ⟨rfl, C2_empty_host cfgNoHost rfl⟩

/-! ## Password mode and the validator (C3, C4) -/

/-- C3, failing input: a plain SQL Server configuration (so password mode applies
whatever the auth method field says) with non-empty host and database name and an
empty user, whose auth method field is `service_principal`. The validator selects its
branch on the auth method alone and returns no error, where a missing-user error is
due. -/
theorem C3_validator_skips_user_check :
    cfgSqlServerPrincipal.DatabaseHost ≠ "" ∧ cfgSqlServerPrincipal.DatabaseName ≠ "" ∧
    cfgSqlServerPrincipal.DatabaseType ≠ AzureSqlDbType ∧
    cfgSqlServerPrincipal.DatabaseUser = "" ∧
    ValidateMSSQLConfig (some cfgSqlServerPrincipal) = none := by
  decide

/-- When the auth method field is not `service_principal`, the validator does report
an empty user, for every database type. -/
theorem validate_missing_user (c : DatabaseConfig)
    (hHost : c.DatabaseHost ≠ "") (hName : c.DatabaseName ≠ "")
    (hAuth : c.AzureAuthMethod ≠ AzureAuthServicePrincipal) (hUser : c.DatabaseUser = "") :
    ValidateMSSQLConfig (some c) =
      some (GoError.Errorf "database user is required for basic authentication") := by
  simp [ValidateMSSQLConfig, hHost, hName, hAuth, hUser]

/-- C4, failing input: the validator accepts the SQL Server configuration with auth
method `service_principal` and no user, and the builder, which takes the basic-auth
branch for every non-Azure type, rejects it; so does the composed entry point. -/
theorem C4_builder_rejects_validated :
    ValidateMSSQLConfig (some cfgSqlServerPrincipal) = none ∧
    BuildMSSQLConnectionString (some cfgSqlServerPrincipal) =
      ("", some (GoError.Errorf "database user is required")) ∧
    getMssqlConnectionString (some cfgSqlServerPrincipal) =
      ("", some (GoError.Errorf "database user is required")) := by
  decide

/-- Outside the combination of a non-Azure type with auth method `service_principal`,
the builder accepts every validated configuration. -/
theorem build_of_valid (c : DatabaseConfig) (hv : ValidateMSSQLConfig (some c) = none)
    (hmode : c.DatabaseType = AzureSqlDbType ∨ c.AzureAuthMethod ≠ AzureAuthServicePrincipal) :
    (BuildMSSQLConnectionString (some c)).2 = none := by
  simp only [ValidateMSSQLConfig] at hv
  rw [build_some]
  split_ifs at hv with h1 h2 h3 h4 h5 h6 h7
  · have hc : c.DatabaseType = AzureSqlDbType ∧ c.AzureAuthMethod = AzureAuthServicePrincipal :=
      ⟨hmode.resolve_right (fun h => h h3), h3⟩
    simp [hc, buildAzureServicePrincipalConnectionString, h1, h4, h5]
  · have hc : ¬ (c.DatabaseType = AzureSqlDbType ∧
        c.AzureAuthMethod = AzureAuthServicePrincipal) := fun h => h3 h.2
    simp only [hc, if_false, buildBasicMSSQLConnectionString, h1, h7]

/-! ## The composed entry point (C5) -/

/-- Every failing result of the builder carries the empty string. -/
theorem build_error_empty (c : Option DatabaseConfig) (s : String) (e : GoError)
    (h : BuildMSSQLConnectionString c = (s, some e)) : s = "" := by
  cases c with
  | none =>
    simp only [BuildMSSQLConnectionString, Prod.mk.injEq] at h
    exact h.1.symm
  | some c =>
    rw [build_some] at h
    simp only [buildAzureServicePrincipalConnectionString, buildBasicMSSQLConnectionString] at h
    split_ifs at h <;> simp only [Prod.mk.injEq, reduceCtorEq, and_false] at h <;> exact h.1.symm

/-- C5: for every configuration, nil included, if the validator fails with `e` then
the composed entry point returns the empty string together with exactly `e`; and
whenever the composed entry point fails, the string it returns is empty. -/
theorem C5_entry_point_propagates (c : Option DatabaseConfig) :
    (∀ e, ValidateMSSQLConfig c = some e → getMssqlConnectionString c = ("", some e)) ∧
    (∀ s e, getMssqlConnectionString c = (s, some e) → s = "") := by
  refine ⟨fun e h => get_of_invalid c e h, ?_⟩
  intro s e h
  cases hv : ValidateMSSQLConfig c with
  | some err =>
    rw [get_of_invalid c err hv] at h
    simp only [Prod.mk.injEq] at h
    exact h.1.symm
  | none =>
    rw [get_of_valid c hv] at h
    exact build_error_empty c s e h

/-- C5, witness: the nil configuration, and a configuration without tenant id. -/
theorem C5_entry_point_propagates_witness :
    getMssqlConnectionString none = ("", some GoError.ErrDatabaseIsNull) ∧
    getMssqlConnectionString (some cfgNoTenant) = ("", some (GoError.Errorf
      "azure_tenant_id is required for service principal authentication")) :=
  ⟨(C5_entry_point_propagates none).1 GoError.ErrDatabaseIsNull rfl,
   (C5_entry_point_propagates (some cfgNoTenant)).1 _ (by decide)⟩

/-! ## The builder and the validator (C6) -/

/-- C6, counterexample: the validator rejects a configuration without database name,
and one with service-principal auth and no tenant id, while the builder accepts both
and returns a connection string. -/
theorem C6_counterexample :
    ValidateMSSQLConfig (some cfgNoName) = some (GoError.Errorf "database name is required") ∧
    BuildMSSQLConnectionString (some cfgNoName) =
      ("server=db.internal;user id=svc;password=p@ss;database=", none) ∧
    ValidateMSSQLConfig (some cfgNoTenant) = some (GoError.Errorf
      "azure_tenant_id is required for service principal authentication") ∧
    BuildMSSQLConnectionString (some cfgNoTenant) =
      ("server=acct.database.windows.net;fedauth=ActiveDirectoryServicePrincipal;" ++
        "User ID=cid;Password=secret;database=ledger", none) := by
  decide

/-- C6, amended: the builder runs only its own checks. When the validator fails with
error `e`, the builder fails with the same `e` exactly when `e` is the null-config
error, the invalid-host error, or, for database type `azuresqldb`, the
missing-client-id or missing-client-secret error. -/
theorem C6_builder_own_checks (c : Option DatabaseConfig) (e : GoError)
    (h : ValidateMSSQLConfig c = some e) :
    BuildMSSQLConnectionString c = ("", some e) ↔
      (e = GoError.ErrDatabaseIsNull ∨ e = GoError.ErrDatabaseHostInvalid ∨
       (∃ cfg, c = some cfg ∧ cfg.DatabaseType = AzureSqlDbType ∧
        (e = GoError.Errorf
            "azure_client_id is required for service principal authentication" ∨
         e = GoError.Errorf
            "azure_client_secret is required for service principal authentication"))) := by
  cases c with
  | none =>
    simp only [ValidateMSSQLConfig, Option.some.injEq] at h
    subst h
    simp [BuildMSSQLConnectionString]
  | some c =>
    simp only [ValidateMSSQLConfig] at h
    rw [build_some]
    simp only [buildAzureServicePrincipalConnectionString, buildBasicMSSQLConnectionString]
    split_ifs at h <;> simp only [Option.some.injEq, reduceCtorEq] at h <;> subst h <;>
      split_ifs <;> simp_all

/-- C6, witness: a service-principal configuration for Azure SQL DB without client id
fails in the builder with the validator's error. -/
theorem C6_builder_own_checks_witness :
    BuildMSSQLConnectionString (some cfgNoTenantNoClient) = ("", some (GoError.Errorf
      "azure_client_id is required for service principal authentication")) :=
  (C6_builder_own_checks (some cfgNoTenantNoClient) _ (by decide)).mpr
    (Or.inr (Or.inr ⟨cfgNoTenantNoClient, rfl, by decide, Or.inl rfl⟩))

/-! ## The basic-auth connection string (C7) -/

/-- C7: for every non-null configuration whose database type is not `azuresqldb` and
whose host, user and database name are non-empty, the builder returns exactly
`server=<host>;user id=<user>;password=<password>;database=<name>`, the user
untransformed and nothing after the database name; the composed entry point returns
the same whenever the auth method field is not `service_principal`. -/
theorem C7_basic_connection_string (c : DatabaseConfig)
    (hType : c.DatabaseType ≠ AzureSqlDbType) (hHost : c.DatabaseHost ≠ "")
    (hUser : c.DatabaseUser ≠ "") (hName : c.DatabaseName ≠ "") :
    BuildMSSQLConnectionString (some c) =
      ("server=" ++ c.DatabaseHost ++ ";user id=" ++ c.DatabaseUser ++
        ";password=" ++ c.DatabasePassword ++ ";database=" ++ c.DatabaseName, none) ∧
    (c.AzureAuthMethod ≠ AzureAuthServicePrincipal →
      getMssqlConnectionString (some c) =
        ("server=" ++ c.DatabaseHost ++ ";user id=" ++ c.DatabaseUser ++
          ";password=" ++ c.DatabasePassword ++ ";database=" ++ c.DatabaseName, none)) := by
  have hb : BuildMSSQLConnectionString (some c) =
      ("server=" ++ c.DatabaseHost ++ ";user id=" ++ c.DatabaseUser ++
        ";password=" ++ c.DatabasePassword ++ ";database=" ++ c.DatabaseName, none) := by
    rw [build_some]
    simp [buildBasicMSSQLConnectionString, hType, hHost, hUser]
  refine ⟨hb, fun hAuth => ?_⟩
  rw [get_of_valid, hb]
  simp [ValidateMSSQLConfig, hHost, hName, hAuth, hUser]

/-- C7, witness: the end-to-end SQL Server scenario. -/
theorem C7_basic_connection_string_witness :
    BuildMSSQLConnectionString (some cfgSqlServer) =
      ("server=db.internal;user id=svc;password=p@ss;database=ledger", none) ∧
    getMssqlConnectionString (some cfgSqlServer) =
      ("server=db.internal;user id=svc;password=p@ss;database=ledger", none) :=
  ⟨(C7_basic_connection_string cfgSqlServer (by decide) (by decide) (by decide)
      (by decide)).1,
   (C7_basic_connection_string cfgSqlServer (by decide) (by decide) (by decide)
      (by decide)).2 (by decide)⟩

/-! ## Azure identity qualification (C8) -/

/-- C8: for every configuration with database type `azuresqldb`, an auth method other
than `service_principal`, and non-empty host and user, the builder emits as user id
`user ++ "@" ++ extractServerName host` when the user contains no `@` and the short
server name is non-empty, and the user unchanged when the user contains `@` or the
short server name is empty. -/
theorem C8_azure_identity (c : DatabaseConfig)
    (hType : c.DatabaseType = AzureSqlDbType)
    (hAuth : c.AzureAuthMethod ≠ AzureAuthServicePrincipal)
    (hHost : c.DatabaseHost ≠ "") (hUser : c.DatabaseUser ≠ "") :
    ('@' ∉ c.DatabaseUser.data → extractServerName c.DatabaseHost ≠ "" →
      BuildMSSQLConnectionString (some c) =
        ("server=" ++ c.DatabaseHost ++ ";user id=" ++
          (c.DatabaseUser ++ "@" ++ extractServerName c.DatabaseHost) ++
          ";password=" ++ c.DatabasePassword ++ ";database=" ++ c.DatabaseName, none)) ∧
    (('@' ∈ c.DatabaseUser.data ∨ extractServerName c.DatabaseHost = "") →
      BuildMSSQLConnectionString (some c) =
        ("server=" ++ c.DatabaseHost ++ ";user id=" ++ c.DatabaseUser ++
          ";password=" ++ c.DatabasePassword ++ ";database=" ++ c.DatabaseName, none)) := by
  have hbr : ¬ (c.DatabaseType = AzureSqlDbType ∧
      c.AzureAuthMethod = AzureAuthServicePrincipal) := fun h => hAuth h.2
  rw [build_some, if_neg hbr]
  constructor
  · intro hat hsrv
    have hcont : ¬ stringsContains c.DatabaseUser "@" = true :=
      fun h => hat ((stringsContains_at _).mp h)
    simp [buildBasicMSSQLConnectionString, hHost, hUser, hType, hcont, hsrv]
  · intro h
    rcases h with hat | hsrv
    · have hcont : stringsContains c.DatabaseUser "@" = true := (stringsContains_at _).mpr hat
      simp [buildBasicMSSQLConnectionString, hHost, hUser, hcont]
    · simp [buildBasicMSSQLConnectionString, hHost, hUser, hsrv]

/-- C8, witness: user `alice` on host `myserver.database.windows.net` becomes
`alice@myserver`, and user `alice@myserver` is left unchanged. -/
theorem C8_azure_identity_witness :
    BuildMSSQLConnectionString (some cfgAlice) =
      ("server=myserver.database.windows.net;user id=alice@myserver;password=pw;" ++
        "database=ledger", none) ∧
    BuildMSSQLConnectionString (some cfgAliceQualified) =
      ("server=myserver.database.windows.net;user id=alice@myserver;password=pw;" ++
        "database=ledger", none) :=
  ⟨((C8_azure_identity cfgAlice (by decide) (by decide) (by decide) (by decide)).1
      (by decide) (by decide)).trans (by decide),
   ((C8_azure_identity cfgAliceQualified (by decide) (by decide) (by decide) (by decide)).2
      (Or.inl (by decide))).trans (by decide)⟩

/-! ## Server short-name extraction (C9) -/

/-- The port step of the source agrees with step (a) of the specification when no
colon is left after step (a), that is when the only colon of the host, if any,
introduces a trailing decimal port. -/
theorem port_step_eq_spec (host : String)
    (hPort : stringsIndex (specStripTrailingPort host) ":" = -1) :
    (if stringsIndex host ":" ≠ -1 then sliceTo host (stringsIndex host ":") else host) =
      specStripTrailingPort host := by
  have hnone : ∀ s : String, stringsIndex s ":" = -1 → indexOfSub ":".data s.data = none := by
    intro s hs
    unfold stringsIndex at hs
    cases h : indexOfSub ":".data s.data with
    | none => rfl
    | some i =>
      rw [h] at hs
      simp only at hs
      omega
  have hsame : specStripTrailingPort host = host →
      (if stringsIndex host ":" ≠ -1 then sliceTo host (stringsIndex host ":") else host) =
        specStripTrailingPort host := by
    intro he
    rw [he] at hPort ⊢
    simp [hPort]
  have hsplit := List.takeWhile_append_dropWhile Char.isDigit host.data.reverse
  cases hd : host.data.reverse.dropWhile Char.isDigit with
  | nil =>
    apply hsame
    simp [specStripTrailingPort, hd]
  | cons c rest =>
    by_cases hc : c = ':' ∧ host.data.reverse.takeWhile Char.isDigit ≠ []
    · have hspec : specStripTrailingPort host = ⟨rest.reverse⟩ := by
        simp only [specStripTrailingPort, hd]
        rw [if_pos hc]
      rw [hspec] at hPort ⊢
      have hnot : ':' ∉ rest.reverse :=
        (indexOfSub_singleton_eq_none ':' rest.reverse).mp (hnone _ hPort)
      have hdata : host.data =
          rest.reverse ++ ':' :: (host.data.reverse.takeWhile Char.isDigit).reverse := by
        have h2 := congrArg List.reverse hsplit
        rw [hd, hc.1] at h2
        simpa using h2.symm
      have hidx := indexOfSub_singleton_append ':' rest.reverse
        (host.data.reverse.takeWhile Char.isDigit).reverse hnot
      rw [← hdata] at hidx
      rw [cut_at_index]
      have hcolon : (":" : String).data = [':'] := rfl
      rw [hcolon, hidx]
      simp only
      congr 1
      conv_lhs => rw [hdata]
      exact List.take_left _ _
    · apply hsame
      simp only [specStripTrailingPort, hd]
      rw [if_neg hc]

/-- The domain step of the source agrees with step (b) of the specification on a
string in which the domain text occurs, if at all, first as its suffix. -/
theorem domain_step_eq_spec (base : String)
    (hDom : stringsIndex base ".database.windows.net" = -1 ∨
      stringsIndex base ".database.windows.net" + 21 = base.data.length) :
    (if stringsIndex base ".database.windows.net" ≠ -1 then
        sliceTo base (stringsIndex base ".database.windows.net")
      else base) = specStripDomainSuffix base := by
  rw [cut_at_index]
  unfold specStripDomainSuffix
  unfold stringsIndex at hDom
  cases h : indexOfSub ".database.windows.net".data base.data with
  | none =>
    have hns : ¬ (".database.windows.net".data.isSuffixOf base.data = true) := by
      intro hs
      obtain ⟨i, hi⟩ := indexOfSub_isSome_of_infix _ _
        (List.isSuffixOf_iff_suffix.mp hs).isInfix
      rw [h] at hi
      exact Option.noConfusion hi
    simp [hns]
  | some i =>
    rw [h] at hDom
    simp only at hDom
    have hlen : i + 21 = base.data.length := by
      rcases hDom with h1 | h1
      · omega
      · exact_mod_cast h1
    have hpre := indexOfSub_some_isPrefix _ _ _ h
    have hdl : ".database.windows.net".data.length = 21 := rfl
    have heq : ".database.windows.net".data = base.data.drop i := by
      apply hpre.eq_of_length
      rw [List.length_drop, hdl]
      omega
    have hs : ".database.windows.net".data.isSuffixOf base.data = true := by
      rw [List.isSuffixOf_iff_suffix, heq]
      exact List.drop_suffix _ _
    have hi : base.data.length - 21 = i := by omega
    simp only [hs, if_true, hdl, hi]

/-- Source and specification agree on every host whose only colon, if any, introduces
a trailing decimal port and in which, once the port is removed, the domain text occurs
first as the suffix or not at all. -/
theorem extractServerName_eq_spec (host : String)
    (hPort : stringsIndex (specStripTrailingPort host) ":" = -1)
    (hDom : stringsIndex (specStripTrailingPort host) ".database.windows.net" = -1 ∨
      stringsIndex (specStripTrailingPort host) ".database.windows.net" + 21 =
        (specStripTrailingPort host).data.length) :
    extractServerName host = specServerShortName host := by
  unfold extractServerName specServerShortName
  simp only
  rw [port_step_eq_spec host hPort]
  exact domain_step_eq_spec _ hDom

/-- The three documented examples: source and specification agree on them. -/
theorem extractServerName_examples :
    extractServerName "myserver.database.windows.net:1433" = "myserver" ∧
    extractServerName "localhost:1433" = "localhost" ∧
    extractServerName "127.0.0.1" = "127.0.0.1" ∧
    extractServerName "servername.database.windows.net" = "servername" ∧
    specServerShortName "myserver.database.windows.net:1433" = "myserver" ∧
    specServerShortName "localhost:1433" = "localhost" ∧
    specServerShortName "127.0.0.1" = "127.0.0.1" := by
  decide

/-- C9, failing input: the host `myserver.database.windows.net.internal` has no port
(no colon at all) and does not end in `.database.windows.net`, so the two steps of the
specification return it unchanged; the source cuts at the first occurrence of the
domain text and returns `myserver`. -/
theorem C9_domain_not_suffix :
    stringsIndex "myserver.database.windows.net.internal" ":" = -1 ∧
    ".database.windows.net".data.isSuffixOf
      "myserver.database.windows.net.internal".data = false ∧
    specServerShortName "myserver.database.windows.net.internal" =
      "myserver.database.windows.net.internal" ∧
    extractServerName "myserver.database.windows.net.internal" = "myserver" ∧
    extractServerName "myserver.database.windows.net.internal" ≠
      specServerShortName "myserver.database.windows.net.internal" := by
  decide

/-- A second divergence, on the port step: in `tcp:myserver.database.windows.net` the
colon does not introduce a port; the source cuts at it all the same. -/
theorem extractServerName_cuts_first_colon :
    extractServerName "tcp:myserver.database.windows.net" = "tcp" ∧
    specServerShortName "tcp:myserver.database.windows.net" = "tcp:myserver" := by
  decide

/-! ## The service-principal connection string (C10) -/

/-- C10: for every configuration with database type `azuresqldb` and auth method
`service_principal` that passes the validator, the builder (and hence the composed
entry point) returns exactly
`server=<host>;fedauth=ActiveDirectoryServicePrincipal;User ID=<client id>;Password=<client secret>;database=<name>`;
and for every configuration with any other (type, auth method) pair the builder is the
basic-auth builder, whose result is never that string. -/
theorem C10_service_principal_string (c : DatabaseConfig)
    (hType : c.DatabaseType = AzureSqlDbType)
    (hAuth : c.AzureAuthMethod = AzureAuthServicePrincipal)
    (hv : ValidateMSSQLConfig (some c) = none) :
    BuildMSSQLConnectionString (some c) =
      ("server=" ++ c.DatabaseHost ++ ";fedauth=ActiveDirectoryServicePrincipal;User ID=" ++
        c.AzureClientID ++ ";Password=" ++ c.AzureClientSecret ++
        ";database=" ++ c.DatabaseName, none) ∧
    getMssqlConnectionString (some c) =
      ("server=" ++ c.DatabaseHost ++ ";fedauth=ActiveDirectoryServicePrincipal;User ID=" ++
        c.AzureClientID ++ ";Password=" ++ c.AzureClientSecret ++
        ";database=" ++ c.DatabaseName, none) ∧
    (∀ d : DatabaseConfig,
      ¬ (d.DatabaseType = AzureSqlDbType ∧ d.AzureAuthMethod = AzureAuthServicePrincipal) →
      BuildMSSQLConnectionString (some d) = buildBasicMSSQLConnectionString d ∧
      BuildMSSQLConnectionString (some d) ≠
        ("server=" ++ d.DatabaseHost ++ ";fedauth=ActiveDirectoryServicePrincipal;User ID=" ++
          d.AzureClientID ++ ";Password=" ++ d.AzureClientSecret ++
          ";database=" ++ d.DatabaseName, none)) := by
  have hb : BuildMSSQLConnectionString (some c) =
      ("server=" ++ c.DatabaseHost ++ ";fedauth=ActiveDirectoryServicePrincipal;User ID=" ++
        c.AzureClientID ++ ";Password=" ++ c.AzureClientSecret ++
        ";database=" ++ c.DatabaseName, none) := by
    simp only [ValidateMSSQLConfig] at hv
    rw [build_some, if_pos ⟨hType, hAuth⟩]
    split_ifs at hv with h1 h2 h3 h4 h5
    simp [buildAzureServicePrincipalConnectionString, h1, h3, h4]
  refine ⟨hb, ?_, ?_⟩
  · rw [get_of_valid _ hv, hb]
  · intro d hd
    have hbd : BuildMSSQLConnectionString (some d) = buildBasicMSSQLConnectionString d := by
      rw [build_some, if_neg hd]
    refine ⟨hbd, ?_⟩
    rw [hbd]
    unfold buildBasicMSSQLConnectionString
    split_ifs
    · simp
    · simp
    · intro H
      have H1 := congrArg String.data (congrArg Prod.fst H)
      simp only [String.data_append, List.append_assoc, List.append_cancel_left_eq] at H1
      revert H1
      simp

/-- C10, witness: the end-to-end service-principal scenario. -/
theorem C10_service_principal_string_witness :
    ValidateMSSQLConfig (some cfgPrincipal) = none ∧
    BuildMSSQLConnectionString (some cfgPrincipal) =
      ("server=acct.database.windows.net;fedauth=ActiveDirectoryServicePrincipal;" ++
        "User ID=cid;Password=secret;database=ledger", none) :=
  ⟨by decide,
   ((C10_service_principal_string cfgPrincipal (by decide) (by decide) (by decide)).1).trans
      (by decide)⟩

/-! ## The service-principal scenario (C11) -/

/-- The builder on a validated service-principal configuration for Azure SQL DB. -/
theorem build_service_principal (c : DatabaseConfig)
    (hType : c.DatabaseType = AzureSqlDbType)
    (hAuth : c.AzureAuthMethod = AzureAuthServicePrincipal)
    (hv : ValidateMSSQLConfig (some c) = none) :
    BuildMSSQLConnectionString (some c) =
      ("server=" ++ c.DatabaseHost ++ ";fedauth=ActiveDirectoryServicePrincipal;User ID=" ++
        c.AzureClientID ++ ";Password=" ++ c.AzureClientSecret ++
        ";database=" ++ c.DatabaseName, none) := by
  simp only [ValidateMSSQLConfig] at hv
  rw [build_some, if_pos ⟨hType, hAuth⟩]
  split_ifs at hv with h1 h2 h3 h4 h5
  simp [buildAzureServicePrincipalConnectionString, h1, h3, h4]

/-- The characters of the service-principal connection string, cut at every `=` and
`;` of its fixed text. -/
theorem service_principal_data (h cid sec name : String) :
    ("server=" ++ h ++ ";fedauth=ActiveDirectoryServicePrincipal;User ID=" ++ cid ++
      ";Password=" ++ sec ++ ";database=" ++ name).data =
    "server".data ++ '=' :: (h.data ++ ';' :: ("fedauth".data ++ '=' ::
      ("ActiveDirectoryServicePrincipal".data ++ ';' :: ("User ID".data ++ '=' ::
        (cid.data ++ ';' :: ("Password".data ++ '=' :: (sec.data ++ ';' ::
          ("database".data ++ '=' :: name.data)))))))) := by
  simp [String.data_append, List.append_assoc]

/-- C11: for every validated service-principal configuration for Azure SQL DB the
builder succeeds and the returned string contains the marker
`fedauth=ActiveDirectoryServicePrincipal`, the client id, the client secret and the
database name; and when none of host, client id, client secret and database name
contains `password`, neither does the returned string. -/
theorem C11_service_principal_contents (c : DatabaseConfig)
    (hType : c.DatabaseType = AzureSqlDbType)
    (hAuth : c.AzureAuthMethod = AzureAuthServicePrincipal)
    (hv : ValidateMSSQLConfig (some c) = none) :
    (BuildMSSQLConnectionString (some c)).2 = none ∧
    stringsContains (BuildMSSQLConnectionString (some c)).1
      "fedauth=ActiveDirectoryServicePrincipal" = true ∧
    stringsContains (BuildMSSQLConnectionString (some c)).1 c.AzureClientID = true ∧
    stringsContains (BuildMSSQLConnectionString (some c)).1 c.AzureClientSecret = true ∧
    stringsContains (BuildMSSQLConnectionString (some c)).1 c.DatabaseName = true ∧
    (stringsContains c.DatabaseHost "password" = false →
     stringsContains c.AzureClientID "password" = false →
     stringsContains c.AzureClientSecret "password" = false →
     stringsContains c.DatabaseName "password" = false →
     stringsContains (BuildMSSQLConnectionString (some c)).1 "password" = false) := by
  rw [build_service_principal c hType hAuth hv]
  simp only [stringsContains_iff, ← Bool.not_eq_true]
  rw [service_principal_data]
  refine ⟨trivial, ?_, ?_, ?_, ?_, ?_⟩
  · exact ⟨"server".data ++ '=' :: (c.DatabaseHost.data ++ [';']),
      ';' :: ("User ID".data ++ '=' :: (c.AzureClientID.data ++ ';' :: ("Password".data ++
        '=' :: (c.AzureClientSecret.data ++ ';' :: ("database".data ++ '=' ::
          c.DatabaseName.data))))), by simp [List.append_assoc]⟩
  · exact ⟨"server".data ++ '=' :: (c.DatabaseHost.data ++ ';' :: ("fedauth".data ++ '=' ::
        ("ActiveDirectoryServicePrincipal".data ++ ';' :: ("User ID".data ++ ['='])))),
      ';' :: ("Password".data ++ '=' :: (c.AzureClientSecret.data ++ ';' ::
        ("database".data ++ '=' :: c.DatabaseName.data))), by simp [List.append_assoc]⟩
  · exact ⟨"server".data ++ '=' :: (c.DatabaseHost.data ++ ';' :: ("fedauth".data ++ '=' ::
        ("ActiveDirectoryServicePrincipal".data ++ ';' :: ("User ID".data ++ '=' ::
          (c.AzureClientID.data ++ ';' :: ("Password".data ++ ['='])))))),
      ';' :: ("database".data ++ '=' :: c.DatabaseName.data), by simp [List.append_assoc]⟩
  · exact ⟨"server".data ++ '=' :: (c.DatabaseHost.data ++ ';' :: ("fedauth".data ++ '=' ::
        ("ActiveDirectoryServicePrincipal".data ++ ';' :: ("User ID".data ++ '=' ::
          (c.AzureClientID.data ++ ';' :: ("Password".data ++ '=' ::
            (c.AzureClientSecret.data ++ ';' :: ("database".data ++ ['='])))))))),
      [], by simp [List.append_assoc]⟩
  · intro h1 h2 h3 h4 hin
    have heq : '=' ∉ "password".data := by decide
    have hsc : ';' ∉ "password".data := by decide
    have lit : ∀ s : List Char, indexOfSub "password".data s = none →
        ¬ "password".data <:+: s := fun s hs => (indexOfSub_eq_none_iff _ _).mp hs
    rcases infix_of_infix_append_sep _ _ _ _ heq hin with k | k
    · exact lit _ (by decide) k
    rcases infix_of_infix_append_sep _ _ _ _ hsc k with k | k
    · exact h1 k
    rcases infix_of_infix_append_sep _ _ _ _ heq k with k | k
    · exact lit _ (by decide) k
    rcases infix_of_infix_append_sep _ _ _ _ hsc k with k | k
    · exact lit _ (by decide) k
    rcases infix_of_infix_append_sep _ _ _ _ heq k with k | k
    · exact lit _ (by decide) k
    rcases infix_of_infix_append_sep _ _ _ _ hsc k with k | k
    · exact h2 k
    rcases infix_of_infix_append_sep _ _ _ _ heq k with k | k
    · exact lit _ (by decide) k
    rcases infix_of_infix_append_sep _ _ _ _ hsc k with k | k
    · exact h3 k
    rcases infix_of_infix_append_sep _ _ _ _ heq k with k | k
    · exact lit _ (by decide) k
    · exact h4 k

/-- C11, witness: the end-to-end service-principal scenario. The returned string
contains the marker, `cid`, `secret` and `ledger`, and does not contain `password`. -/
theorem C11_service_principal_contents_witness :
    ValidateMSSQLConfig (some cfgPrincipal) = none ∧
    (BuildMSSQLConnectionString (some cfgPrincipal)).2 = none ∧
    stringsContains (BuildMSSQLConnectionString (some cfgPrincipal)).1
      "fedauth=ActiveDirectoryServicePrincipal" = true ∧
    stringsContains (BuildMSSQLConnectionString (some cfgPrincipal)).1 "cid" = true ∧
    stringsContains (BuildMSSQLConnectionString (some cfgPrincipal)).1 "secret" = true ∧
    stringsContains (BuildMSSQLConnectionString (some cfgPrincipal)).1 "ledger" = true ∧
    stringsContains (BuildMSSQLConnectionString (some cfgPrincipal)).1 "password" = false :=
  have h := C11_service_principal_contents cfgPrincipal (by decide) (by decide) (by decide)
  ⟨by decide, h.1, h.2.1, h.2.2.1, h.2.2.2.1, h.2.2.2.2.1,
   h.2.2.2.2.2 (by decide) (by decide) (by decide) (by decide)⟩

/-! ## Dialect facts (C13, C14, C15) -/

/-- C13: for every database-type string `t`, `GetDatabaseTypeDriver t` is `mssql`,
the value of `GetMssqlDriverName`, when `t` is `sqlserver` or `azuresqldb`, and `t`
itself for every other string; so the two SQL Server types map to the same driver. -/
theorem C13_driver_name (t : String) :
    GetDatabaseTypeDriver t =
      (if t = "sqlserver" ∨ t = "azuresqldb" then GetMssqlDriverName else t) ∧
    GetMssqlDriverName = "mssql" ∧
    GetDatabaseTypeDriver "azuresqldb" = GetDatabaseTypeDriver "sqlserver" := by
  refine ⟨?_, rfl, by decide⟩
  unfold GetDatabaseTypeDriver GetMssqlDriverName
  by_cases h : t = SqlServerDbType ∨ t = AzureSqlDbType
  · have h2 : t = "sqlserver" ∨ t = "azuresqldb" := h
    rw [if_pos h, if_pos h2]
  · have h2 : ¬ (t = "sqlserver" ∨ t = "azuresqldb") := h
    rw [if_neg h, if_neg h2]
    split_ifs with h3 h4 h5
    · exact h3.symm
    · exact h4.symm
    · exact h5.symm
    · rfl

/-- C14: for every database-type string `t`, `SupportsTransactionSavepoints t` is true
if and only if `t` is the Postgres type, `sqlserver` or `azuresqldb`; it is true for
`postgres` and `sqlserver`, false for `mysql`, for the sqlite type and for a type
string no constant names. -/
theorem C14_savepoint_support (t : String) :
    (SupportsTransactionSavepoints t = true ↔
      (t = PostgresDbType ∨ t = "sqlserver" ∨ t = "azuresqldb")) ∧
    SupportsTransactionSavepoints "postgres" = true ∧
    SupportsTransactionSavepoints "sqlserver" = true ∧
    SupportsTransactionSavepoints "azuresqldb" = true ∧
    SupportsTransactionSavepoints "mysql" = false ∧
    SupportsTransactionSavepoints Sqlite3DbType = false ∧
    SupportsTransactionSavepoints "oracle" = false := by
  refine ⟨?_, by decide, by decide, by decide, by decide, by decide, by decide⟩
  simp [SupportsTransactionSavepoints, IsMssqlDatabase, SqlServerDbType, AzureSqlDbType]

/-- C15: for every database-type string `t`, `GetDateTimeFormat t` is the template
`2006-01-02T15:04:05` if and only if `IsMssqlDatabase t`, that is `t` is `sqlserver`
or `azuresqldb`, and the template `2006-01-02 15:04:05` for every other string; the
two templates have the same length and are equal except for the one character between
date and time. -/
theorem C15_datetime_format (t : String) :
    GetDateTimeFormat t =
      (if IsMssqlDatabase t = true then "2006-01-02T15:04:05" else "2006-01-02 15:04:05") ∧
    (GetDateTimeFormat t = "2006-01-02T15:04:05" ↔ IsMssqlDatabase t = true) ∧
    (IsMssqlDatabase t = true ↔ (t = "sqlserver" ∨ t = "azuresqldb")) ∧
    "2006-01-02T15:04:05".length = "2006-01-02 15:04:05".length ∧
    "2006-01-02T15:04:05".data.take 10 = "2006-01-02 15:04:05".data.take 10 ∧
    "2006-01-02T15:04:05".data.drop 11 = "2006-01-02 15:04:05".data.drop 11 ∧
    "2006-01-02T15:04:05".data.get? 10 = some 'T' ∧
    "2006-01-02 15:04:05".data.get? 10 = some ' ' := by
  have hiff : IsMssqlDatabase t = true ↔ (t = "sqlserver" ∨ t = "azuresqldb") := by
    simp [IsMssqlDatabase, SqlServerDbType, AzureSqlDbType]
  have hfmt : GetDateTimeFormat t =
      (if IsMssqlDatabase t = true then "2006-01-02T15:04:05"
        else "2006-01-02 15:04:05") := by
    unfold GetDateTimeFormat
    by_cases hm : IsMssqlDatabase t = true
    · rw [if_pos hm]
      have hms := hiff.mp hm
      have h1 : ¬ t = PostgresDbType := by
        rcases hms with h | h <;> rw [h] <;> decide
      have h2 : ¬ t = MySqlDbType := by
        rcases hms with h | h <;> rw [h] <;> decide
      have h3 : ¬ t = Sqlite3DbType := by
        rcases hms with h | h <;> rw [h] <;> decide
      have h4 : t = SqlServerDbType ∨ t = AzureSqlDbType := hms
      rw [if_neg h1, if_neg h2, if_neg h3, if_pos h4]
    · rw [if_neg hm]
      have h4 : ¬ (t = SqlServerDbType ∨ t = AzureSqlDbType) := fun h => hm (hiff.mpr h)
      rw [if_neg h4]
      split_ifs <;> rfl
  refine ⟨hfmt, ?_, hiff, by decide, by decide, by decide, by decide, by decide⟩
  rw [hfmt]
  by_cases hm : IsMssqlDatabase t = true
  · simp [hm]
  · simp only [hm, if_false, iff_false]
    decide

/-! ## Credential non-interference (C19) -/

/-- C19: two configurations that both take the service-principal branch and agree on
host, client id, client secret and database name have equal builder results; two
configurations that both take the basic-auth branch and agree on database type, host,
user, password and database name have equal builder results. -/
theorem C19_non_interference (c d : DatabaseConfig)
    (hHost : c.DatabaseHost = d.DatabaseHost) (hName : c.DatabaseName = d.DatabaseName) :
    ((c.DatabaseType = AzureSqlDbType ∧ c.AzureAuthMethod = AzureAuthServicePrincipal) →
     (d.DatabaseType = AzureSqlDbType ∧ d.AzureAuthMethod = AzureAuthServicePrincipal) →
     c.AzureClientID = d.AzureClientID → c.AzureClientSecret = d.AzureClientSecret →
     BuildMSSQLConnectionString (some c) = BuildMSSQLConnectionString (some d)) ∧
    (¬ (c.DatabaseType = AzureSqlDbType ∧ c.AzureAuthMethod = AzureAuthServicePrincipal) →
     ¬ (d.DatabaseType = AzureSqlDbType ∧ d.AzureAuthMethod = AzureAuthServicePrincipal) →
     c.DatabaseType = d.DatabaseType → c.DatabaseUser = d.DatabaseUser →
     c.DatabasePassword = d.DatabasePassword →
     BuildMSSQLConnectionString (some c) = BuildMSSQLConnectionString (some d)) := by
  constructor
  · intro hc hd hId hSecret
    rw [build_some, build_some, if_pos hc, if_pos hd]
    unfold buildAzureServicePrincipalConnectionString
    rw [hHost, hName, hId, hSecret]
  · intro hc hd hType hUser hPass
    rw [build_some, build_some, if_neg hc, if_neg hd]
    unfold buildBasicMSSQLConnectionString
    rw [hHost, hName, hType, hUser, hPass]

/-- C19, witness: the service-principal scenario with and without user, password and
with another tenant id; the SQL Server scenario with and without Azure fields. -/
theorem C19_non_interference_witness :
    BuildMSSQLConnectionString (some cfgPrincipal) =
      BuildMSSQLConnectionString (some cfgPrincipalOtherUser) ∧
    BuildMSSQLConnectionString (some cfgSqlServer) =
      BuildMSSQLConnectionString (some cfgSqlServerAzureFields) :=
  ⟨(C19_non_interference cfgPrincipal cfgPrincipalOtherUser rfl rfl).1
      (by decide) (by decide) rfl rfl,
   (C19_non_interference cfgSqlServer cfgSqlServerAzureFields rfl rfl).2
      (by decide) (by decide) rfl rfl rfl⟩

/-! ## The short server name is a clean prefix (C17) -/

/-- Cutting at the first occurrence leaves a prefix. -/
theorem cut_isPrefix (s sub : String) :
    (if stringsIndex s sub ≠ -1 then sliceTo s (stringsIndex s sub) else s).data <+:
      s.data := by
  rw [cut_at_index]
  cases indexOfSub sub.data s.data with
  | none => exact List.prefix_refl _
  | some i => exact List.take_prefix i s.data

/-- After cutting at the first occurrence of a non-empty needle, the needle is gone. -/
theorem cut_no_occurrence (s sub : String) (hne : sub.data ≠ []) :
    indexOfSub sub.data
      (if stringsIndex s sub ≠ -1 then sliceTo s (stringsIndex s sub) else s).data = none := by
  rw [cut_at_index]
  cases h : indexOfSub sub.data s.data with
  | none => exact h
  | some i => exact indexOfSub_take sub.data s.data i hne h

/-- Cutting a string in which the needle does not occur changes nothing. -/
theorem cut_of_absent (s sub : String) (h : indexOfSub sub.data s.data = none) :
    (if stringsIndex s sub ≠ -1 then sliceTo s (stringsIndex s sub) else s) = s := by
  rw [cut_at_index, h]

/-- The short server name is a prefix of the host. -/
theorem extractServerName_isPrefix (host : String) :
    (extractServerName host).data <+: host.data := by
  unfold extractServerName
  exact (cut_isPrefix _ ".database.windows.net").trans (cut_isPrefix host ":")

/-- C17: for every host string `h`, `extractServerName h` is a prefix of `h`, contains
no `:` character and no occurrence of `.database.windows.net`, and applying
`extractServerName` to it again returns it unchanged. -/
theorem C17_clean_prefix (h : String) :
    (extractServerName h).data <+: h.data ∧
    ':' ∉ (extractServerName h).data ∧
    stringsContains (extractServerName h) ":" = false ∧
    ¬ (".database.windows.net".data <:+: (extractServerName h).data) ∧
    stringsContains (extractServerName h) ".database.windows.net" = false ∧
    extractServerName (extractServerName h) = extractServerName h := by
  have hcolon : ':' ∉ (extractServerName h).data := by
    have h1 : ':' ∉
        (if stringsIndex h ":" ≠ -1 then sliceTo h (stringsIndex h ":") else h).data :=
      (indexOfSub_singleton_eq_none ':' _).mp
        (cut_no_occurrence h ":" (by decide))
    intro hin
    apply h1
    have hp : (extractServerName h).data <+:
        (if stringsIndex h ":" ≠ -1 then sliceTo h (stringsIndex h ":") else h).data := by
      unfold extractServerName
      exact cut_isPrefix _ ".database.windows.net"
    exact hp.subset hin
  have hdomNone : indexOfSub ".database.windows.net".data (extractServerName h).data = none := by
    unfold extractServerName
    exact cut_no_occurrence _ ".database.windows.net" (by decide)
  have hdom : ¬ (".database.windows.net".data <:+: (extractServerName h).data) :=
    (indexOfSub_eq_none_iff _ _).mp hdomNone
  have hcolonNone : indexOfSub ":".data (extractServerName h).data = none :=
    (indexOfSub_singleton_eq_none ':' _).mpr hcolon
  have hc1 : stringsContains (extractServerName h) ":" = false := by
    rw [← Bool.not_eq_true, stringsContains_iff]
    exact (indexOfSub_eq_none_iff _ _).mp hcolonNone
  have hc2 : stringsContains (extractServerName h) ".database.windows.net" = false := by
    rw [← Bool.not_eq_true, stringsContains_iff]
    exact hdom
  refine ⟨extractServerName_isPrefix h, hcolon, hc1, hdom, hc2, ?_⟩
  generalize extractServerName h = r at hcolonNone hdomNone
  unfold extractServerName
  simp only
  rw [cut_of_absent r ":" hcolonNone, cut_of_absent r ".database.windows.net" hdomNone]

/-! ## Savepoint phrasing (C16) -/

/-- A keyword without brackets occurs in `lit ++ "[" ++ n ++ "]"` exactly when it
occurs in `n`, provided it does not occur in the literal `lit`. -/
theorem contains_bracketed (kw lit n : String) (hne : kw.data ≠ [])
    (hopen : '[' ∉ kw.data) (hclose : ']' ∉ kw.data)
    (hlit : indexOfSub kw.data lit.data = none) :
    stringsContains (lit ++ "[" ++ n ++ "]") kw = stringsContains n kw := by
  rw [Bool.eq_iff_iff, stringsContains_iff, stringsContains_iff]
  have hdata : (lit ++ "[" ++ n ++ "]").data = lit.data ++ '[' :: (n.data ++ ']' :: []) := by
    simp [String.data_append, List.append_assoc]
  rw [hdata]
  constructor
  · intro h
    rcases infix_of_infix_append_sep _ _ _ _ hopen h with h1 | h1
    · exact absurd h1 ((indexOfSub_eq_none_iff _ _).mp hlit)
    · rcases infix_of_infix_append_sep _ _ _ _ hclose h1 with h2 | h2
      · exact h2
      · exact absurd (List.eq_nil_of_infix_nil h2) hne
  · intro h
    have hn : n.data <:+: lit.data ++ '[' :: (n.data ++ ']' :: []) :=
      ⟨lit.data ++ ['['], [']'], by simp [List.append_assoc]⟩
    exact h.trans hn

/-- C16: for every savepoint name `n` and every session, `SetSavePointMssql` returns
the error and the state of one call `Exec("SAVE TRANSACTION [" ++ n ++ "]")` with no
bind arguments, and `RollbackToSavePointMssql` those of one call
`Exec("ROLLBACK TRANSACTION [" ++ n ++ "]")`; a recording session has received exactly
that one statement more; and each statement contains `SAVEPOINT` only if `n` does. -/
theorem C16_savepoint_phrasing (n : String) :
    (∀ (σ ρ α : Type) (sess : Session σ ρ α) (st : σ),
      SetSavePointMssql sess st n =
        ((sess.Exec st ("SAVE TRANSACTION [" ++ n ++ "]") []).1.2,
         (sess.Exec st ("SAVE TRANSACTION [" ++ n ++ "]") []).2) ∧
      RollbackToSavePointMssql sess st n =
        ((sess.Exec st ("ROLLBACK TRANSACTION [" ++ n ++ "]") []).1.2,
         (sess.Exec st ("ROLLBACK TRANSACTION [" ++ n ++ "]") []).2)) ∧
    (∀ (ρ α : Type) (respond : String → ρ × Option GoError) (log : List (String × List α)),
      SetSavePointMssql (recordingSession respond) log n =
        ((respond ("SAVE TRANSACTION [" ++ n ++ "]")).2,
         log ++ [("SAVE TRANSACTION [" ++ n ++ "]", [])]) ∧
      RollbackToSavePointMssql (recordingSession respond) log n =
        ((respond ("ROLLBACK TRANSACTION [" ++ n ++ "]")).2,
         log ++ [("ROLLBACK TRANSACTION [" ++ n ++ "]", [])])) ∧
    stringsContains ("SAVE TRANSACTION [" ++ n ++ "]") "SAVEPOINT" =
      stringsContains n "SAVEPOINT" ∧
    stringsContains ("ROLLBACK TRANSACTION [" ++ n ++ "]") "SAVEPOINT" =
      stringsContains n "SAVEPOINT" := by
  refine ⟨fun σ ρ α sess st => ⟨rfl, rfl⟩, fun ρ α respond log => ⟨rfl, rfl⟩, ?_, ?_⟩
  · have hsplit : ("SAVE TRANSACTION [" : String) = "SAVE TRANSACTION " ++ "[" := by decide
    rw [hsplit]
    exact contains_bracketed "SAVEPOINT" "SAVE TRANSACTION " n (by decide) (by decide)
      (by decide) (by decide)
  · have hsplit : ("ROLLBACK TRANSACTION [" : String) = "ROLLBACK TRANSACTION " ++ "[" := by
      decide
    rw [hsplit]
    exact contains_bracketed "SAVEPOINT" "ROLLBACK TRANSACTION " n (by decide) (by decide)
      (by decide) (by decide)

/-! ## Splitting the basic-auth connection string (C20) -/

/-- The basic-auth builder on a configuration with host and user: the returned string
with the user id it emits. -/
theorem build_basic_ok (c : DatabaseConfig) (hHost : c.DatabaseHost ≠ "")
    (hUser : c.DatabaseUser ≠ "") :
    buildBasicMSSQLConnectionString c =
      ("server=" ++ c.DatabaseHost ++ ";user id=" ++
        (if c.DatabaseType = AzureSqlDbType ∧ '@' ∉ c.DatabaseUser.data ∧
            extractServerName c.DatabaseHost ≠ "" then
          c.DatabaseUser ++ "@" ++ extractServerName c.DatabaseHost
        else c.DatabaseUser) ++
        ";password=" ++ c.DatabasePassword ++ ";database=" ++ c.DatabaseName, none) := by
  unfold buildBasicMSSQLConnectionString
  rw [if_neg hHost, if_neg hUser]
  by_cases hT : c.DatabaseType = AzureSqlDbType
  · by_cases hat : '@' ∈ c.DatabaseUser.data
    · have hcont : stringsContains c.DatabaseUser "@" = true := (stringsContains_at _).mpr hat
      simp [hcont, hat]
    · have hcont : ¬ stringsContains c.DatabaseUser "@" = true :=
        fun h => hat ((stringsContains_at _).mp h)
      by_cases hs : extractServerName c.DatabaseHost = ""
      · simp [hs]
      · simp [hT, hcont, hat, hs]
  · simp [hT]

/-- A failing basic-auth builder result has an error; so a result without error
comes from a configuration with host and user. -/
theorem build_basic_fields (c : DatabaseConfig)
    (hok : (buildBasicMSSQLConnectionString c).2 = none) :
    c.DatabaseHost ≠ "" ∧ c.DatabaseUser ≠ "" := by
  unfold buildBasicMSSQLConnectionString at hok
  constructor
  · intro h
    simp [h] at hok
  · intro h
    by_cases hH : c.DatabaseHost = ""
    · simp [hH] at hok
    · simp [hH, h] at hok

/-- Splitting `server=h;user id=u;password=p;database=n` on `;` when none of the four
values contains `;`. -/
theorem split_basic (h u p n : String) (hh : ';' ∉ h.data) (hu : ';' ∉ u.data)
    (hp : ';' ∉ p.data) (hn : ';' ∉ n.data) :
    splitOnSemicolon ("server=" ++ h ++ ";user id=" ++ u ++ ";password=" ++ p ++
      ";database=" ++ n) =
      ["server=" ++ h, "user id=" ++ u, "password=" ++ p, "database=" ++ n] := by
  have hd : ("server=" ++ h ++ ";user id=" ++ u ++ ";password=" ++ p ++
      ";database=" ++ n).data =
      [';'].intercalate [("server=" ++ h).data, ("user id=" ++ u).data,
        ("password=" ++ p).data, ("database=" ++ n).data] := by
    simp [List.intercalate, String.data_append, List.append_assoc]
  unfold splitOnSemicolon
  rw [hd, List.splitOn_intercalate _ ';' _ (by simp)]
  · rfl
  · intro l hl
    simp only [List.mem_cons, List.mem_singleton, List.not_mem_nil, or_false] at hl
    rcases hl with rfl | rfl | rfl | rfl <;>
      simp [String.data_append, hh, hu, hp, hn]

/-- C20: for every configuration on which the builder succeeds through the basic-auth
branch and whose host, user, password and database name contain no `;`, splitting the
returned string on `;` yields exactly the four segments `server=<host>`,
`user id=<the possibly qualified user>`, `password=<password>`, `database=<name>`, in
that order; the builder escapes nothing, and for a configuration whose password
contains `;` the split has more than four segments. -/
theorem C20_split_roundtrip (c : DatabaseConfig)
    (hBranch : ¬ (c.DatabaseType = AzureSqlDbType ∧
      c.AzureAuthMethod = AzureAuthServicePrincipal))
    (hok : (BuildMSSQLConnectionString (some c)).2 = none)
    (hHost : ';' ∉ c.DatabaseHost.data) (hUser : ';' ∉ c.DatabaseUser.data)
    (hPass : ';' ∉ c.DatabasePassword.data) (hName : ';' ∉ c.DatabaseName.data) :
    splitOnSemicolon (BuildMSSQLConnectionString (some c)).1 =
      ["server=" ++ c.DatabaseHost,
       "user id=" ++
        (if c.DatabaseType = AzureSqlDbType ∧ '@' ∉ c.DatabaseUser.data ∧
            extractServerName c.DatabaseHost ≠ "" then
          c.DatabaseUser ++ "@" ++ extractServerName c.DatabaseHost
        else c.DatabaseUser),
       "password=" ++ c.DatabasePassword,
       "database=" ++ c.DatabaseName] ∧
    (∃ d : DatabaseConfig,
      ¬ (d.DatabaseType = AzureSqlDbType ∧ d.AzureAuthMethod = AzureAuthServicePrincipal) ∧
      (BuildMSSQLConnectionString (some d)).2 = none ∧
      ';' ∈ d.DatabasePassword.data ∧
      4 < (splitOnSemicolon (BuildMSSQLConnectionString (some d)).1).length) := by
  constructor
  · rw [build_some, if_neg hBranch] at hok ⊢
    obtain ⟨hH, hU⟩ := build_basic_fields c hok
    rw [build_basic_ok c hH hU]
    apply split_basic _ _ _ _ hHost _ hPass hName
    split_ifs with hq
    · have hsrv : ';' ∉ (extractServerName c.DatabaseHost).data :=
        fun hin => hHost ((extractServerName_isPrefix c.DatabaseHost).subset hin)
      simp [String.data_append, hUser, hsrv]
    · exact hUser
  · exact ⟨cfgPasswordSemicolon, by decide, by decide, by decide, by decide⟩

/-- C20, witness: the Azure configuration with user `alice` splits into its four
segments, the user id qualified by the short server name. -/
theorem C20_split_roundtrip_witness :
    splitOnSemicolon (BuildMSSQLConnectionString (some cfgAlice)).1 =
      ["server=myserver.database.windows.net", "user id=alice@myserver", "password=pw",
       "database=ledger"] :=
  ((C20_split_roundtrip cfgAlice (by decide) (by decide) (by decide) (by decide)
      (by decide) (by decide)).1).trans (by decide)

/-! ## Pool settings (C12, C18) -/

end Ezbookkeeping
